import Mathlib

/-!
# AWS035: unencrypted Elasticache replication group

A shallow embedding of `internal/app/tfsec/checks/aws035.go`: the rule's
constants, the `Check` record it registers and its `CheckFunc`, together with
the parts of the `parser` and `scanner` packages the rule calls.  Those two
packages are not part of the sources at hand; what the rule needs from them is
modelled from the specification and marked as such.
-/

namespace Tfsec

/-! ## The parser view: ranges, values, attributes, blocks -/

/-- Modelled from the spec: `parser.Range`, the source range of a block or of
an attribute. -/
structure Range where
  Filename : String
  StartLine : Nat
  EndLine : Nat
deriving DecidableEq, Repr

/-- Modelled from the spec: the raw value of an attribute, "a native boolean,
a string, or other literal". -/
inductive Value where
  | bool (b : Bool)
  | str (s : String)
  | number (n : Int)
  | null
deriving DecidableEq, Repr

/-- Modelled from the spec: `parser.Attribute`, "a named value with a source
range and a raw value". -/
structure Attribute where
  name : String
  value : Value
  range : Range
deriving DecidableEq, Repr

/-- Modelled from the spec: `parser.Block`, "a kind, an ordered list of labels,
a full display name, a source range, and a mapping from attribute name to
Attribute".  The mapping is kept as the list of the block's attributes, looked
up by name. -/
structure Block where
  kind : String
  labels : List String
  fullName : String
  range : Range
  attributes : List Attribute
deriving DecidableEq, Repr

/-- Modelled from the spec: `block.FullName()`, the block's full display name. -/
def Block.FullName (block : Block) : String := block.fullName

/-- Modelled from the spec: `block.Range()`, the block's own source range. -/
def Block.Range (block : Block) : Range := block.range

/-- Modelled from the spec: `block.GetAttribute(name)`, the attribute the
block maps `name` to, or `none` (Go: `nil`) when there is none. -/
def Block.GetAttribute (block : Block) (name : String) : Option Attribute :=
  block.attributes.find? (fun attr => attr.name == name)

/-- Modelled from the spec: `attr.Range()`, the attribute's own source range. -/
def Attribute.Range (attr : Attribute) : Range := attr.range

/-- ASCII lower-casing of a string, character by character. -/
def lowerCase (s : String) : String := ⟨s.data.map Char.toLower⟩

/-- Modelled from the spec: the shared coercion `isBooleanOrStringTrue` (its
definition is not among the sources).  "(a) if the raw value is a native
boolean, return it directly; (b) if the raw value is a string, return true iff
the string's case-insensitive content equals "true"; (c) any other literal
kind coerces to false." -/
def isBooleanOrStringTrue (attr : Attribute) : Bool :=
  match attr.value with
  | Value.bool b => b
  | Value.str s => lowerCase s == "true"
  | _ => false

/-! ## The scanner view: checks, results, contexts -/

abbrev RuleCode := String
abbrev RuleSummary := String

/-- Modelled from the spec: the provider tag of a check. -/
inductive RuleProvider where
  | AWSProvider
  | AzureProvider
  | GCPProvider
  | GeneralProvider
deriving DecidableEq, Repr

/-- Modelled from the spec: the severity of a finding. -/
inductive Severity where
  | SeverityError
  | SeverityWarning
  | SeverityInfo
deriving DecidableEq, Repr

/-- The documentation record `scanner.CheckDocumentation`, with the fields the
rule fills in. -/
structure CheckDocumentation where
  Summary : RuleSummary
  Impact : String
  Resolution : String
  Explanation : String
  BadExample : String
  GoodExample : String
  Links : List String
deriving DecidableEq, Repr

/-- Modelled from the spec: `scanner.Context`, scan-wide state such as the
sibling blocks of the block under evaluation. -/
structure Context where
  blocks : List Block
deriving DecidableEq, Repr

/-- Modelled from the spec: `scanner.Result`, one finding: "human-readable
message, source range, severity, and an optional reference to the specific
Attribute that caused the finding".  `RuleID` is the code of the check whose
`NewResult` built it. -/
structure Result where
  RuleID : RuleCode
  Description : String
  Range : Range
  Severity : Severity
  Attribute : Option Attribute
deriving DecidableEq, Repr

/-- The data fields of `scanner.Check`, as the rule fills them in.  This is
what a `CheckFunc` receives as its `check` argument. -/
structure CheckInfo where
  Code : RuleCode
  Documentation : CheckDocumentation
  Provider : RuleProvider
  RequiredTypes : List String
  RequiredLabels : List String
deriving DecidableEq, Repr

/-- The record `scanner.Check`: the data fields and the evaluation function
`CheckFunc`, which is called with the check itself, a block and a context. -/
structure Check extends CheckInfo where
  CheckFunc : CheckInfo → Block → Context → List Result

/-- Modelled from the spec: `check.NewResult(description, range, severity)`, a
finding without a reference to an attribute. -/
def CheckInfo.NewResult (check : CheckInfo) (description : String) (r : Range)
    (severity : Severity) : Result :=
  { RuleID := check.Code, Description := description, Range := r,
    Severity := severity, Attribute := none }

/-- Modelled from the spec: `check.NewResultWithValueAnnotation(description,
range, attr, severity)`, a finding that "carries a reference to that Attribute
for annotated rendering". -/
def NewResultWithValueAnnotation (check : CheckInfo) (description : String) (r : Range)
    (attr : Attribute) (severity : Severity) : Result :=
  { RuleID := check.Code, Description := description, Range := r,
    Severity := severity, Attribute := some attr }

/-! ## The rule: constants of `aws035.go` -/

def AWSUnencryptedAtRestElasticacheReplicationGroup : RuleCode := "AWS035"

def AWSUnencryptedAtRestElasticacheReplicationGroupDescription : RuleSummary :=
  "Unencrypted Elasticache Replication Group."

def AWSUnencryptedAtRestElasticacheReplicationGroupImpact : String :=
  "Data in the replication group could be readable if compromised"

def AWSUnencryptedAtRestElasticacheReplicationGroupResolution : String :=
  "Enable encryption for replication group"

def AWSUnencryptedAtRestElasticacheReplicationGroupExplanation : String :=
  "\nYou should ensure your Elasticache data is encrypted at rest to help prevent sensitive information from being read by unauthorised users.\n"

def AWSUnencryptedAtRestElasticacheReplicationGroupBadExample : String :=
  "\nresource \"aws_elasticache_replication_group\" \"bad_example\" \x7b\n        replication_group_id = \"foo\"\n        replication_group_description = \"my foo cluster\"\n\n        at_rest_encryption_enabled = false\n\x7d\n"

def AWSUnencryptedAtRestElasticacheReplicationGroupGoodExample : String :=
  "\nresource \"aws_elasticache_replication_group\" \"good_example\" \x7b\n        replication_group_id = \"foo\"\n        replication_group_description = \"my foo cluster\"\n\n        at_rest_encryption_enabled = true\n\x7d\n"

/-! ## The rule: its evaluation function and its record -/

/-- The message of the finding for a missing attribute:
`fmt.Sprintf("Resource '%s' defines ... (missing at_rest_encryption_enabled attribute).", block.FullName())`. -/
def missingMessage (fullName : String) : String :=
  "Resource '" ++ fullName ++
    "' defines an unencrypted Elasticache Replication Group (missing at_rest_encryption_enabled attribute)."

/-- The message of the finding for a present attribute that is not true:
`fmt.Sprintf("Resource '%s' defines ... (at_rest_encryption_enabled set to false).", block.FullName())`. -/
def disabledMessage (fullName : String) : String :=
  "Resource '" ++ fullName ++
    "' defines an unencrypted Elasticache Replication Group (at_rest_encryption_enabled set to false)."

/-- The `CheckFunc` of the AWS035 check (`aws035.go`, lines 53 to 76). -/
def CheckFunc (check : CheckInfo) (block : Block) (_context : Context) : List Result :=
  let encryptionAttr := block.GetAttribute "at_rest_encryption_enabled"
  match encryptionAttr with
  | none =>
    [check.NewResult (missingMessage block.FullName) block.Range Severity.SeverityError]
  | some encryptionAttr =>
    if !isBooleanOrStringTrue encryptionAttr then
      [ NewResultWithValueAnnotation check (disabledMessage block.FullName)
          encryptionAttr.Range encryptionAttr Severity.SeverityError]
    else
      []

/-- The check that `init` hands to `scanner.RegisterCheck`. -/
def AWS035 : Check :=
  { Code := AWSUnencryptedAtRestElasticacheReplicationGroup
    Documentation :=
      { Summary := AWSUnencryptedAtRestElasticacheReplicationGroupDescription
        Impact := AWSUnencryptedAtRestElasticacheReplicationGroupImpact
        Resolution := AWSUnencryptedAtRestElasticacheReplicationGroupResolution
        Explanation := AWSUnencryptedAtRestElasticacheReplicationGroupExplanation
        BadExample := AWSUnencryptedAtRestElasticacheReplicationGroupBadExample
        GoodExample := AWSUnencryptedAtRestElasticacheReplicationGroupGoodExample
        Links :=
          ["https://registry.terraform.io/providers/hashicorp/aws/latest/docs/resources/elasticache_replication_group#at_rest_encryption_enabled",
           "https://docs.aws.amazon.com/AmazonElastiCache/latest/red-ug/at-rest-encryption.html"] }
    Provider := RuleProvider.AWSProvider
    RequiredTypes := ["resource"]
    RequiredLabels := ["aws_elasticache_replication_group"]
    CheckFunc := CheckFunc }

/-! ## Messages -/

/-- A message mentions a text when the text occurs in it as a contiguous run
of characters. -/
def Mentions (msg part : String) : Prop := part.data <:+: msg.data

instance Mentions.decidable (msg part : String) : Decidable (Mentions msg part) := by
  unfold Mentions; infer_instance

/-! ## The match predicate and the engine step -/

/-- Modelled from the spec: the Match Predicate of a check (scanner code, not
among the sources).  "A Check applies to a Block iff the Block's kind is a
member of the Check's required-kinds set AND the Block's first label is a
member of the Check's required-labels set.  Required-kinds/labels with zero
entries means no constraint on that axis."  A block without a first label is
non-matching when labels are required. -/
def CheckInfo.IsRequiredForBlock (check : CheckInfo) (block : Block) : Bool :=
  (check.RequiredTypes.isEmpty || check.RequiredTypes.contains block.kind) &&
  (check.RequiredLabels.isEmpty ||
    match block.labels.head? with
    | some label => check.RequiredLabels.contains label
    | none => false)

/-- Modelled from the spec: one step of the engine's match-and-evaluate loop
(scanner code, not among the sources).  The evaluation function is invoked
with (Check, Block, Context) only when the Match Predicate accepts the block;
otherwise the check contributes no finding. -/
def Check.Run (check : Check) (block : Block) (context : Context) : List Result :=
  if check.IsRequiredForBlock block then
    check.CheckFunc check.toCheckInfo block context
  else
    []

/-! ## The registry -/

/-- Modelled from the spec: the configuration error of the registry. -/
inductive RegistryError where
  | duplicateCode (code : RuleCode)
deriving DecidableEq, Repr

/-- Modelled from the spec: `scanner.RegisterCheck` (not among the sources),
as a step on the process-wide registry.  "Fails (reports a configuration
error) if a Check with the same code already exists"; otherwise the check is
appended, so that insertion order is preserved. -/
def RegisterCheck (registry : List Check) (check : Check) :
    Except RegistryError Unit × List Check :=
  if registry.any (fun c => c.Code == check.Code) then
    (Except.error (RegistryError.duplicateCode check.Code), registry)
  else
    (Except.ok (), registry ++ [check])

/-- The registry reached from the empty one by calling `RegisterCheck` on each
check of a sequence in turn. -/
def registerAll (checks : List Check) : List Check :=
  checks.foldl (fun registry check => (RegisterCheck registry check).2) []

/-! ## Sample inputs -/

def sampleRange : Range := { Filename := "main.tf", StartLine := 1, EndLine := 6 }

def sampleAttrRange : Range := { Filename := "main.tf", StartLine := 5, EndLine := 5 }

def sampleContext : Context := { blocks := [] }

/-- The attribute `at_rest_encryption_enabled` with a given raw value. -/
def encryptionAttrWith (v : Value) : Attribute :=
  { name := "at_rest_encryption_enabled", value := v, range := sampleAttrRange }

/-- The block `resource "aws_elasticache_replication_group" "bad_example"` with
the given attributes. -/
def sampleBlock (attrs : List Attribute) : Block :=
  { kind := "resource"
    labels := ["aws_elasticache_replication_group", "bad_example"]
    fullName := "aws_elasticache_replication_group.bad_example"
    range := sampleRange
    attributes := attrs }

def otherAttrs : List Attribute :=
  [{ name := "replication_group_id", value := Value.str "foo",
     range := { Filename := "main.tf", StartLine := 2, EndLine := 2 } },
   { name := "replication_group_description", value := Value.str "my foo cluster",
     range := { Filename := "main.tf", StartLine := 3, EndLine := 3 } }]

/-- A block that shares full name, range and `at_rest_encryption_enabled`
attribute with `sampleBlock [encryptionAttrWith v]`, and nothing else. -/
def unrelatedBlock (v : Value) : Block :=
  { kind := "data"
    labels := []
    fullName := "aws_elasticache_replication_group.bad_example"
    range := sampleRange
    attributes := otherAttrs ++ [encryptionAttrWith v, encryptionAttrWith Value.null] }

/-- A check that reuses the code of AWS035 and reports nothing. -/
def impostor : Check :=
  { Code := "AWS035"
    Documentation :=
      { Summary := "", Impact := "", Resolution := "", Explanation := "",
        BadExample := "", GoodExample := "", Links := [] }
    Provider := RuleProvider.GeneralProvider
    RequiredTypes := []
    RequiredLabels := []
    CheckFunc := fun _ _ _ => [] }

/-- A check with a code of its own that reports nothing. -/
def otherCheck : Check :=
  { impostor with Code := "AWS036" }

/-! ## Auxiliary facts -/

theorem CheckFunc_of_missing (check : CheckInfo) (block : Block) (context : Context)
    (h : block.GetAttribute "at_rest_encryption_enabled" = none) :
    CheckFunc check block context =
      [check.NewResult (missingMessage block.FullName) block.Range Severity.SeverityError] := by
  simp [CheckFunc, h]

theorem CheckFunc_of_not_true (check : CheckInfo) (block : Block) (context : Context)
    (attr : Attribute) (h : block.GetAttribute "at_rest_encryption_enabled" = some attr)
    (hv : isBooleanOrStringTrue attr = false) :
    CheckFunc check block context =
      [ NewResultWithValueAnnotation check (disabledMessage block.FullName)
          attr.Range attr Severity.SeverityError] := by
  simp [CheckFunc, h, hv]

theorem CheckFunc_of_true (check : CheckInfo) (block : Block) (context : Context)
    (attr : Attribute) (h : block.GetAttribute "at_rest_encryption_enabled" = some attr)
    (hv : isBooleanOrStringTrue attr = true) :
    CheckFunc check block context = [] := by
  simp [CheckFunc, h, hv]

theorem isBooleanOrStringTrue_of_false_like (attr : Attribute)
    (hval : attr.value = Value.bool false ∨
      (∃ s, attr.value = Value.str s ∧ lowerCase s = "false") ∨
      isBooleanOrStringTrue attr = false) :
    isBooleanOrStringTrue attr = false := by
  rcases hval with h | ⟨s, h, hs⟩ | h
  · simp [isBooleanOrStringTrue, h]
  · simp only [isBooleanOrStringTrue, h, hs]
    decide
  · exact h

theorem isBooleanOrStringTrue_of_true_like (attr : Attribute)
    (hval : attr.value = Value.bool true ∨
      (∃ s, attr.value = Value.str s ∧ lowerCase s = "true") ∨
      isBooleanOrStringTrue attr = true) :
    isBooleanOrStringTrue attr = true := by
  rcases hval with h | ⟨s, h, hs⟩ | h
  · simp [isBooleanOrStringTrue, h]
  · simp only [isBooleanOrStringTrue, h, hs]
    decide
  · exact h

/-! ## The three outcomes of the evaluation -/

/-- C1: for every block without an attribute named `at_rest_encryption_enabled`
the AWS035 CheckFunc returns exactly one Result, of severity SeverityError,
whose range is the block's own range and which carries no attribute. -/
theorem CheckFunc_missing_attribute (check : CheckInfo) (block : Block) (context : Context)
    (h : block.GetAttribute "at_rest_encryption_enabled" = none) :
    ∃ r : Result, AWS035.CheckFunc check block context = [r] ∧
      r.Severity = Severity.SeverityError ∧ r.Range = block.Range ∧ r.Attribute = none := by
  refine ⟨_, CheckFunc_of_missing check block context h, rfl, rfl, rfl⟩

theorem CheckFunc_missing_attribute_witness :
    (sampleBlock otherAttrs).GetAttribute "at_rest_encryption_enabled" = none ∧
    ∃ r : Result, AWS035.CheckFunc AWS035.toCheckInfo (sampleBlock otherAttrs) sampleContext = [r] ∧
      r.Severity = Severity.SeverityError ∧ r.Range = (sampleBlock otherAttrs).Range ∧
      r.Attribute = none :=
  ⟨by decide, CheckFunc_missing_attribute AWS035.toCheckInfo (sampleBlock otherAttrs)
    sampleContext (by decide)⟩

/-- C2: for every block whose `at_rest_encryption_enabled` attribute is present
and is the boolean false, or a string that reads "false" in any letter case, or
any value the coercion `isBooleanOrStringTrue` maps to false, the AWS035
CheckFunc returns exactly one Result, of severity SeverityError, whose range is
the attribute's range and which carries that attribute. -/
theorem CheckFunc_attribute_false (check : CheckInfo) (block : Block) (context : Context)
    (attr : Attribute)
    (hattr : block.GetAttribute "at_rest_encryption_enabled" = some attr)
    (hval : attr.value = Value.bool false ∨
      (∃ s, attr.value = Value.str s ∧ lowerCase s = "false") ∨
      isBooleanOrStringTrue attr = false) :
    ∃ r : Result, AWS035.CheckFunc check block context = [r] ∧
      r.Severity = Severity.SeverityError ∧ r.Range = attr.Range ∧ r.Attribute = some attr := by
  have hv := isBooleanOrStringTrue_of_false_like attr hval
  exact ⟨_, CheckFunc_of_not_true check block context attr hattr hv, rfl, rfl, rfl⟩

theorem CheckFunc_attribute_false_witness :
    ∃ r : Result,
      AWS035.CheckFunc AWS035.toCheckInfo
        (sampleBlock (otherAttrs ++ [encryptionAttrWith (Value.str "FaLsE")])) sampleContext = [r] ∧
      r.Severity = Severity.SeverityError ∧
      r.Range = (encryptionAttrWith (Value.str "FaLsE")).Range ∧
      r.Attribute = some (encryptionAttrWith (Value.str "FaLsE")) :=
  CheckFunc_attribute_false AWS035.toCheckInfo
    (sampleBlock (otherAttrs ++ [encryptionAttrWith (Value.str "FaLsE")])) sampleContext
    (encryptionAttrWith (Value.str "FaLsE")) (by decide)
    (Or.inr (Or.inl ⟨"FaLsE", rfl, by decide⟩))

/-- C3: for every block whose `at_rest_encryption_enabled` attribute is present
and is the boolean true, or a string that reads "true" in any letter case (that
is, the coercion `isBooleanOrStringTrue` maps it to true), the AWS035 CheckFunc
returns the empty sequence of Results. -/
theorem CheckFunc_attribute_true (check : CheckInfo) (block : Block) (context : Context)
    (attr : Attribute)
    (hattr : block.GetAttribute "at_rest_encryption_enabled" = some attr)
    (hval : attr.value = Value.bool true ∨
      (∃ s, attr.value = Value.str s ∧ lowerCase s = "true") ∨
      isBooleanOrStringTrue attr = true) :
    AWS035.CheckFunc check block context = [] :=
  CheckFunc_of_true check block context attr hattr (isBooleanOrStringTrue_of_true_like attr hval)

theorem CheckFunc_attribute_true_witness :
    AWS035.CheckFunc AWS035.toCheckInfo
      (sampleBlock (otherAttrs ++ [encryptionAttrWith (Value.str "TRUE")])) sampleContext = [] :=
  CheckFunc_attribute_true AWS035.toCheckInfo
    (sampleBlock (otherAttrs ++ [encryptionAttrWith (Value.str "TRUE")])) sampleContext
    (encryptionAttrWith (Value.str "TRUE")) (by decide)
    (Or.inr (Or.inl ⟨"TRUE", rfl, by decide⟩))

/-! ## Messages of the findings -/

theorem mentions_fullName_missing (fullName : String) :
    Mentions (missingMessage fullName) fullName :=
  ⟨"Resource '".data,
   "' defines an unencrypted Elasticache Replication Group (missing at_rest_encryption_enabled attribute).".data,
   by simp [missingMessage, String.data_append]⟩

theorem mentions_fullName_disabled (fullName : String) :
    Mentions (disabledMessage fullName) fullName :=
  ⟨"Resource '".data,
   "' defines an unencrypted Elasticache Replication Group (at_rest_encryption_enabled set to false).".data,
   by simp [disabledMessage, String.data_append]⟩

theorem mentions_missing_text (fullName : String) :
    Mentions (missingMessage fullName) "missing at_rest_encryption_enabled" :=
  ⟨("Resource '" ++ fullName ++
      "' defines an unencrypted Elasticache Replication Group (").data,
   " attribute).".data,
   by simp [missingMessage, String.data_append]⟩

theorem mentions_disabled_text (fullName : String) :
    Mentions (disabledMessage fullName) "at_rest_encryption_enabled set to false" :=
  ⟨("Resource '" ++ fullName ++
      "' defines an unencrypted Elasticache Replication Group (").data,
   ").".data,
   by simp [disabledMessage, String.data_append]⟩

theorem Mentions.trans_part {msg mid part : String} (h₁ : Mentions msg mid)
    (h₂ : Mentions mid part) : Mentions msg part := by
  obtain ⟨a, b, hab⟩ := h₁
  obtain ⟨c, d, hcd⟩ := h₂
  refine ⟨a ++ c, d ++ b, ?_⟩
  rw [← hab, ← hcd]
  simp [List.append_assoc]

/-- C4 (as stated, refuted): on the block `aws_elasticache_replication_group`
"bad_example" the single message does not state the raw value when that value
is the string "no", the string "FALSE" or the number 0; the three messages are
the one produced for the boolean false. -/
theorem disabled_message_omits_raw_value :
    (AWS035.CheckFunc AWS035.toCheckInfo
        (sampleBlock [encryptionAttrWith (Value.str "no")]) sampleContext).map
      (fun r => (r.Description, decide (Mentions r.Description "no"))) =
      [(disabledMessage "aws_elasticache_replication_group.bad_example", false)] ∧
    (AWS035.CheckFunc AWS035.toCheckInfo
        (sampleBlock [encryptionAttrWith (Value.str "FALSE")]) sampleContext).map
      (fun r => (r.Description, decide (Mentions r.Description "FALSE"))) =
      [(disabledMessage "aws_elasticache_replication_group.bad_example", false)] ∧
    (AWS035.CheckFunc AWS035.toCheckInfo
        (sampleBlock [encryptionAttrWith (Value.number 0)]) sampleContext).map
      (fun r => (r.Description, decide (Mentions r.Description "0"))) =
      [(disabledMessage "aws_elasticache_replication_group.bad_example", false)] ∧
    (AWS035.CheckFunc AWS035.toCheckInfo
        (sampleBlock [encryptionAttrWith (Value.bool false)]) sampleContext).map
      (fun r => r.Description) =
      [disabledMessage "aws_elasticache_replication_group.bad_example"] := by
  set_option maxRecDepth 100000 in decide

theorem mentions_false_disabled (fullName : String) :
    Mentions (disabledMessage fullName) "false" :=
  Mentions.trans_part (mentions_disabled_text fullName) (by decide)

/-- C4 (amended): for every block whose `at_rest_encryption_enabled` attribute
is present and coerces to false, the AWS035 CheckFunc returns a single Result
whose message contains the block's full name and the fixed text
"at_rest_encryption_enabled set to false", so that it mentions the value
false, for every falsy raw value; the message is `disabledMessage` of the full
name. -/
theorem disabled_message_fixed_text (check : CheckInfo) (block : Block) (context : Context)
    (attr : Attribute)
    (hattr : block.GetAttribute "at_rest_encryption_enabled" = some attr)
    (hval : isBooleanOrStringTrue attr = false) :
    ∃ r : Result, AWS035.CheckFunc check block context = [r] ∧
      r.Description = disabledMessage block.FullName ∧
      Mentions r.Description block.FullName ∧
      Mentions r.Description "at_rest_encryption_enabled set to false" ∧
      Mentions r.Description "false" :=
  ⟨_, CheckFunc_of_not_true check block context attr hattr hval, rfl,
    mentions_fullName_disabled block.FullName, mentions_disabled_text block.FullName,
    mentions_false_disabled block.FullName⟩

theorem disabled_message_fixed_text_witness :
    ∃ r : Result,
      AWS035.CheckFunc AWS035.toCheckInfo
        (sampleBlock [encryptionAttrWith (Value.number 0)]) sampleContext = [r] ∧
      r.Description = disabledMessage (sampleBlock [encryptionAttrWith (Value.number 0)]).FullName ∧
      Mentions r.Description (sampleBlock [encryptionAttrWith (Value.number 0)]).FullName ∧
      Mentions r.Description "at_rest_encryption_enabled set to false" ∧
      Mentions r.Description "false" :=
  disabled_message_fixed_text AWS035.toCheckInfo
    (sampleBlock [encryptionAttrWith (Value.number 0)]) sampleContext
    (encryptionAttrWith (Value.number 0)) (by decide) (by decide)

/-- C5: for every block without an `at_rest_encryption_enabled` attribute the
message of the single Result contains the block's full name and the text
"missing at_rest_encryption_enabled"; hence, when the full name contains
"bad_example", as for the block `aws_elasticache_replication_group`
"bad_example", the message mentions "bad_example". -/
theorem missing_message_mentions (check : CheckInfo) (block : Block) (context : Context)
    (h : block.GetAttribute "at_rest_encryption_enabled" = none) :
    ∃ r : Result, AWS035.CheckFunc check block context = [r] ∧
      Mentions r.Description block.FullName ∧
      Mentions r.Description "missing at_rest_encryption_enabled" ∧
      (Mentions block.FullName "bad_example" → Mentions r.Description "bad_example") :=
  ⟨_, CheckFunc_of_missing check block context h,
    mentions_fullName_missing block.FullName, mentions_missing_text block.FullName,
    fun hb => Mentions.trans_part (mentions_fullName_missing block.FullName) hb⟩

theorem missing_message_mentions_witness :
    Mentions (sampleBlock otherAttrs).FullName "bad_example" ∧
    ∃ r : Result,
      AWS035.CheckFunc AWS035.toCheckInfo (sampleBlock otherAttrs) sampleContext = [r] ∧
      Mentions r.Description (sampleBlock otherAttrs).FullName ∧
      Mentions r.Description "missing at_rest_encryption_enabled" ∧
      (Mentions (sampleBlock otherAttrs).FullName "bad_example" →
        Mentions r.Description "bad_example") :=
  ⟨by decide, missing_message_mentions AWS035.toCheckInfo (sampleBlock otherAttrs)
    sampleContext (by decide)⟩

/-! ## The match predicate -/

theorem AWS035_required_iff (block : Block) :
    AWS035.IsRequiredForBlock block = true ↔
      block.kind = "resource" ∧
        ∃ label, block.labels.head? = some label ∧
          label = "aws_elasticache_replication_group" := by
  cases hl : block.labels.head? with
  | none => simp [CheckInfo.IsRequiredForBlock, AWS035, hl]
  | some label =>
    simp [CheckInfo.IsRequiredForBlock, AWS035, hl]

/-- C6: the AWS035 check, with RequiredTypes = ["resource"] and RequiredLabels
= ["aws_elasticache_replication_group"], applies to a block exactly when the
block's kind is "resource" and its first label exists and is
"aws_elasticache_replication_group"; a block without labels does not match;
and for a block that does not match the check contributes no finding. -/
theorem AWS035_match_predicate (block : Block) (context : Context) :
    AWS035.RequiredTypes = ["resource"] ∧
    AWS035.RequiredLabels = ["aws_elasticache_replication_group"] ∧
    (AWS035.IsRequiredForBlock block = true ↔
      block.kind = "resource" ∧
        ∃ label, block.labels.head? = some label ∧
          label = "aws_elasticache_replication_group") ∧
    (block.labels = [] → AWS035.IsRequiredForBlock block = false) ∧
    (AWS035.IsRequiredForBlock block = false → AWS035.Run block context = []) := by
  refine ⟨rfl, rfl, AWS035_required_iff block, ?_, ?_⟩
  · intro hl
    simp [CheckInfo.IsRequiredForBlock, AWS035, hl]
  · intro hn
    simp [Check.Run, hn]

theorem AWS035_match_predicate_witness :
    AWS035.IsRequiredForBlock
        { kind := "resource", labels := [], fullName := "resource", range := sampleRange,
          attributes := [] } = false ∧
    AWS035.Run
        { kind := "resource", labels := [], fullName := "resource", range := sampleRange,
          attributes := [] } sampleContext = [] ∧
    AWS035.IsRequiredForBlock (sampleBlock otherAttrs) = true :=
  ⟨(AWS035_match_predicate
      { kind := "resource", labels := [], fullName := "resource", range := sampleRange,
        attributes := [] } sampleContext).2.2.2.1 rfl,
   (AWS035_match_predicate
      { kind := "resource", labels := [], fullName := "resource", range := sampleRange,
        attributes := [] } sampleContext).2.2.2.2 (by decide),
   (AWS035_match_predicate (sampleBlock otherAttrs) sampleContext).2.2.1.mpr
      ⟨by decide, "aws_elasticache_replication_group", by decide, rfl⟩⟩

/-! ## The documentation record -/

/-- C8: the documentation record of the AWS035 check is complete: Summary,
Impact, Resolution, Explanation, BadExample and GoodExample are non-empty
strings, Links is a non-empty list of non-empty strings, and the Code is
"AWS035". -/
theorem AWS035_documentation_complete :
    AWS035.Documentation.Summary ≠ "" ∧
    AWS035.Documentation.Impact ≠ "" ∧
    AWS035.Documentation.Resolution ≠ "" ∧
    AWS035.Documentation.Explanation ≠ "" ∧
    AWS035.Documentation.BadExample ≠ "" ∧
    AWS035.Documentation.GoodExample ≠ "" ∧
    AWS035.Documentation.Links ≠ [] ∧
    (∀ link ∈ AWS035.Documentation.Links, link ≠ "") ∧
    AWS035.Code = "AWS035" := by
  set_option maxRecDepth 100000 in decide

/-! ## The registry -/

/-- The step of the registry that `registerAll` folds. -/
theorem RegisterCheck_snd (registry : List Check) (check : Check) :
    (RegisterCheck registry check).2 =
      if check.Code ∈ registry.map (fun c => c.Code) then registry else registry ++ [check] := by
  by_cases h : check.Code ∈ registry.map (fun c => c.Code)
  · have : registry.any (fun c => c.Code == check.Code) = true := by
      simpa [List.any_eq_true] using h
    simp [RegisterCheck, this, h]
  · have : registry.any (fun c => c.Code == check.Code) = false := by
      simpa [List.any_eq_false] using h
    simp [RegisterCheck, this, h]

theorem RegisterCheck_duplicate (registry : List Check) (check : Check)
    (h : check.Code ∈ registry.map (fun c => c.Code)) :
    RegisterCheck registry check =
      (Except.error (RegistryError.duplicateCode check.Code), registry) := by
  have : registry.any (fun c => c.Code == check.Code) = true := by
    simpa [List.any_eq_true] using h
  simp [RegisterCheck, this]

theorem RegisterCheck_fresh (registry : List Check) (check : Check)
    (h : check.Code ∉ registry.map (fun c => c.Code)) :
    RegisterCheck registry check = (Except.ok (), registry ++ [check]) := by
  have : registry.any (fun c => c.Code == check.Code) = false := by
    simpa [List.any_eq_false] using h
  simp [RegisterCheck, this]

theorem RegisterCheck_nodup (registry : List Check) (check : Check)
    (h : (registry.map (fun c => c.Code)).Nodup) :
    ((RegisterCheck registry check).2.map (fun c => c.Code)).Nodup := by
  rw [RegisterCheck_snd]
  split
  · exact h
  · rename_i hnew
    rw [List.map_append, List.nodup_append]
    refine ⟨h, by simp, ?_⟩
    intro a ha hb
    simp only [List.map_cons, List.map_nil, List.mem_singleton] at hb
    exact hnew (hb ▸ ha)

theorem RegisterCheck_sublist (registry : List Check) (check : Check) :
    List.Sublist (RegisterCheck registry check).2 (registry ++ [check]) := by
  rw [RegisterCheck_snd]
  split
  · exact List.sublist_append_left registry [check]
  · exact List.Sublist.refl _

theorem foldl_RegisterCheck_nodup (checks : List Check) :
    ∀ registry : List Check, (registry.map (fun c => c.Code)).Nodup →
      ((checks.foldl (fun registry check => (RegisterCheck registry check).2)
        registry).map (fun c => c.Code)).Nodup := by
  induction checks with
  | nil => intro registry h; simpa using h
  | cons check rest ih =>
    intro registry h
    simp only [List.foldl_cons]
    exact ih _ (RegisterCheck_nodup registry check h)

theorem foldl_RegisterCheck_sublist (checks : List Check) :
    ∀ registry : List Check,
      List.Sublist (checks.foldl (fun registry check => (RegisterCheck registry check).2)
        registry) (registry ++ checks) := by
  induction checks with
  | nil => intro registry; simp
  | cons check rest ih =>
    intro registry
    simp only [List.foldl_cons]
    have h₁ := ih (RegisterCheck registry check).2
    have h₂ : List.Sublist ((RegisterCheck registry check).2 ++ rest)
        ((registry ++ [check]) ++ rest) :=
      List.Sublist.append (RegisterCheck_sublist registry check) (List.Sublist.refl rest)
    have h₃ := h₁.trans h₂
    simpa [List.append_assoc] using h₃

theorem foldl_RegisterCheck_keeps (checks : List Check) :
    ∀ (registry : List Check) (code : RuleCode), code ∈ registry.map (fun c => c.Code) →
      code ∈ (checks.foldl (fun registry check => (RegisterCheck registry check).2)
        registry).map (fun c => c.Code) := by
  induction checks with
  | nil => intro registry code h; simpa using h
  | cons check rest ih =>
    intro registry code h
    simp only [List.foldl_cons]
    apply ih
    rw [RegisterCheck_snd]
    split
    · exact h
    · rw [List.map_append]
      exact List.mem_append_left _ h

theorem foldl_RegisterCheck_covers (checks : List Check) :
    ∀ (registry : List Check), ∀ check ∈ checks,
      check.Code ∈ (checks.foldl (fun registry check => (RegisterCheck registry check).2)
        registry).map (fun c => c.Code) := by
  induction checks with
  | nil => intro registry check h; cases h
  | cons first rest ih =>
    intro registry check h
    simp only [List.foldl_cons]
    rcases List.mem_cons.mp h with rfl | hrest
    · apply foldl_RegisterCheck_keeps
      rw [RegisterCheck_snd]
      split
      · assumption
      · simp
    · exact ih _ check hrest

/-- C7: registering a check whose code is already registered is rejected and
leaves the registry unchanged (so registering AWS035 a second time is
rejected), a check with a new code is appended; hence in the registry reached
by any sequence of RegisterCheck calls no two checks share a code, the checks
stand in the order in which they were offered, and every offered code is
present. -/
theorem registry_codes_unique (checks registry : List Check) (check : Check) :
    (check.Code ∈ registry.map (fun c => c.Code) →
      RegisterCheck registry check =
        (Except.error (RegistryError.duplicateCode check.Code), registry)) ∧
    (check.Code ∉ registry.map (fun c => c.Code) →
      RegisterCheck registry check = (Except.ok (), registry ++ [check])) ∧
    (RegisterCheck [] AWS035 = (Except.ok (), [AWS035]) ∧
      RegisterCheck [AWS035] AWS035 =
        (Except.error (RegistryError.duplicateCode "AWS035"), [AWS035])) ∧
    ((registerAll checks).map (fun c => c.Code)).Nodup ∧
    List.Sublist (registerAll checks) checks ∧
    (∀ c ∈ checks, c.Code ∈ (registerAll checks).map (fun c => c.Code)) := by
  refine ⟨RegisterCheck_duplicate registry check, RegisterCheck_fresh registry check,
    ⟨?_, ?_⟩, ?_, ?_, ?_⟩
  · exact RegisterCheck_fresh [] AWS035 (by simp)
  · exact RegisterCheck_duplicate [AWS035] AWS035 (by simp)
  · exact foldl_RegisterCheck_nodup checks [] (by simp)
  · simpa using foldl_RegisterCheck_sublist checks []
  · exact foldl_RegisterCheck_covers checks []

theorem registry_codes_unique_witness :
    RegisterCheck [AWS035, otherCheck] impostor =
        (Except.error (RegistryError.duplicateCode "AWS035"), [AWS035, otherCheck]) ∧
    RegisterCheck [AWS035] otherCheck = (Except.ok (), [AWS035, otherCheck]) ∧
    ((registerAll [AWS035, impostor, otherCheck, AWS035]).map (fun c => c.Code)).Nodup ∧
    (registerAll [AWS035, impostor, otherCheck, AWS035]).map (fun c => c.Code) =
      ["AWS035", "AWS036"] :=
  ⟨(registry_codes_unique [] [AWS035, otherCheck] impostor).1 (by decide),
   (registry_codes_unique [] [AWS035] otherCheck).2.1 (by decide),
   (registry_codes_unique [AWS035, impostor, otherCheck, AWS035] [] AWS035).2.2.2.1,
   by decide⟩

/-! ## The inputs the result depends on -/

/-- C10: the result of the AWS035 CheckFunc depends only on the check, the
block's full name, the block's range and the block's
`at_rest_encryption_enabled` attribute: for every check, any two contexts and
any two blocks that agree on these three, the two invocations return equal
sequences of Results, and that sequence has length 0 or 1. -/
theorem CheckFunc_depends_only_on (check : CheckInfo) (context₁ context₂ : Context)
    (block₁ block₂ : Block)
    (hname : block₁.FullName = block₂.FullName)
    (hrange : block₁.Range = block₂.Range)
    (hattr : block₁.GetAttribute "at_rest_encryption_enabled" =
      block₂.GetAttribute "at_rest_encryption_enabled") :
    AWS035.CheckFunc check block₁ context₁ = AWS035.CheckFunc check block₂ context₂ ∧
    ((AWS035.CheckFunc check block₁ context₁).length = 0 ∨
      (AWS035.CheckFunc check block₁ context₁).length = 1) := by
  show CheckFunc check block₁ context₁ = CheckFunc check block₂ context₂ ∧
    ((CheckFunc check block₁ context₁).length = 0 ∨
      (CheckFunc check block₁ context₁).length = 1)
  unfold CheckFunc
  rw [hname, hrange, hattr]
  cases block₂.GetAttribute "at_rest_encryption_enabled" with
  | none => simp
  | some attr => cases hv : isBooleanOrStringTrue attr <;> simp [hv]

theorem CheckFunc_depends_only_on_witness :
    sampleBlock [encryptionAttrWith (Value.bool false)] ≠ unrelatedBlock (Value.bool false) ∧
    AWS035.CheckFunc AWS035.toCheckInfo (sampleBlock [encryptionAttrWith (Value.bool false)])
        sampleContext =
      AWS035.CheckFunc AWS035.toCheckInfo (unrelatedBlock (Value.bool false))
        { blocks := [sampleBlock otherAttrs] } ∧
    ((AWS035.CheckFunc AWS035.toCheckInfo (sampleBlock [encryptionAttrWith (Value.bool false)])
        sampleContext).length = 0 ∨
      (AWS035.CheckFunc AWS035.toCheckInfo (sampleBlock [encryptionAttrWith (Value.bool false)])
        sampleContext).length = 1) :=
  ⟨by decide,
   CheckFunc_depends_only_on AWS035.toCheckInfo sampleContext
    { blocks := [sampleBlock otherAttrs] }
    (sampleBlock [encryptionAttrWith (Value.bool false)]) (unrelatedBlock (Value.bool false))
    rfl rfl (by decide)⟩

end Tfsec
